import Mathlib

/-
Shallow embedding of the ib-treading repository (src/config.py and
src/chart_handler/chart.py).

The repository is a thin GUI adapter: ChartHandler wires chart-widget UI
events to calls on an external Interactive Brokers client and drains a
shared FIFO queue of bar data into the chart widget's dataset.

Modelling choices:
- Bar data is an abstract type parameter `α` (the code performs no
  inspection of bar contents beyond collecting them into a table).
- Every externally visible action (client SDK call, log line, widget
  update, sleep, file write) is recorded as an `Event` in an emitted
  trace, in program order.
- The Python client handle `self.client` (set to None in __init__, bound
  later by set_client) is `Option ClientState`; attribute access on an
  unset handle raises, which the embedding models with `PyResult.raised`
  carrying a Python AttributeError (the null-reference-class error).
- Python truthiness of `self.client.order_id` (falsy for both None and 0)
  is `pyTruthy : Option Int → Bool`.
- `time.sleep` is a recorded event; the asynchronously arriving order id
  is the value held by the client state after the wait window.
- `time.time()` in take_screenshot is an input parameter: the decimal
  rendering of the current Unix timestamp at the moment of the call.
-/

namespace IbTrading

/-- Security descriptor built by chart.py, mirroring ibapi Contract
(only the four fields the code assigns). -/
structure Contract where
  symbol : String
  secType : String
  exchange : String
  currency : String
deriving DecidableEq, Repr

/-- Order object built by place_order, mirroring ibapi Order
(only the three fields the code assigns). -/
structure Order where
  orderType : String
  totalQuantity : Nat
  action : String
deriving DecidableEq, Repr

/-- Configuration resolved by src/config.py (the fields chart.py reads).
INITIAL_SYMBOL, DEFAULT_HISTORICAL_DURATION and DEFAULT_CURRENCY come from
environment variables with fallback defaults; DEFAULT_TIMEFRAME is a
constant in config.py. -/
structure Config where
  INITIAL_SYMBOL : String
  DEFAULT_TIMEFRAME : String
  DEFAULT_HISTORICAL_DURATION : String
  DEFAULT_CURRENCY : String
deriving DecidableEq, Repr

/-- Environment lookup `os.getenv(name, dflt)`: the variable's value when
set, the fallback default otherwise. -/
def getenv (env : String → Option String) (name dflt : String) : String :=
  (env name).getD dflt

/-- Resolution of the config values chart.py reads, from src/config.py:
INITIAL_SYMBOL defaults to AAPL, DEFAULT_HISTORICAL_DURATION to 30 D,
DEFAULT_CURRENCY to USD; DEFAULT_TIMEFRAME is the constant 1 min. -/
def loadConfig (env : String → Option String) : Config :=
  { INITIAL_SYMBOL := getenv env "INITIAL_SYMBOL" "AAPL"
    DEFAULT_TIMEFRAME := "1 min"
    DEFAULT_HISTORICAL_DURATION := getenv env "DEFAULT_HISTORICAL_DURATION" "30 D"
    DEFAULT_CURRENCY := getenv env "DEFAULT_CURRENCY" "USD" }

/-- Externally visible actions of ChartHandler, recorded in program order:
logger calls, chart-widget updates, IB client SDK calls, sleeps and file
writes. `logDebugData b` is the debug line printed for each bar drained
from the queue; `fileWrite name content` is the screenshot file write. -/
inductive Event (α : Type) where
  | logInfo (msg : String)
  | logDebugData (bar : α)
  | logWarning (msg : String)
  | logError (msg : String)
  | spinner (shown : Bool)
  | chartSet (df : List α)
  | watermarkSet (s : String)
  | topbarSymbolSet (s : String)
  | reqHistoricalData (reqId : Nat) (contract : Contract) (endDateTime : String)
      (durationStr : String) (barSizeSetting : String) (whatToShow : String)
      (useRTH : Bool) (formatDate : Nat) (keepUpToDate : Bool)
      (chartOptions : List String)
  | reqIds (numIds : Int)
  | placeOrder (orderId : Int) (contract : Contract) (order : Order)
  | sleepSecs (n : Nat)
  | screenshotCall
  | fileWrite (filename : String) (content : String)
deriving DecidableEq, Repr

/-- The IB client as ChartHandler observes it: its order_id attribute,
set asynchronously by the client's network thread. `none` models no id
assigned; the value is the one present after the fixed wait window. -/
structure ClientState where
  order_id : Option Int
deriving DecidableEq, Repr

/-- Chart-widget state ChartHandler reads or writes: the topbar symbol
textbox value, the topbar timeframe switcher value, the dataset last
pushed via chart.set (none before any set), the watermark label, and the
widget's current rendered image bytes (read by chart.screenshot). -/
structure ChartState (α : Type) where
  symbol : String
  timeframe : String
  dataset : Option (List α)
  watermark : Option String
  rendered : String
deriving DecidableEq, Repr

/-- State of a ChartHandler instance together with the module-level shared
data_queue (a FIFO: head is the oldest element, get_nowait pops the head). -/
structure HandlerState (α : Type) where
  chart : ChartState α
  client : Option ClientState
  data_queue : List α
deriving DecidableEq, Repr

/-- Python exception classes raised by the modelled code. An
attributeError is the AttributeError raised on attribute access through a
None reference. -/
inductive PyErr where
  | attributeError (msg : String)
deriving DecidableEq, Repr

/-- Result of running a handler method: normal return with the new state,
or an uncaught Python exception propagating to the caller. -/
inductive PyResult (σ : Type) where
  | ok (s : σ)
  | raised (e : PyErr)
deriving DecidableEq, Repr

/-- Python truthiness of the Optional[int] order_id attribute: None and 0
are falsy, every other int is truthy. -/
def pyTruthy : Option Int → Bool
  | none => false
  | some n => n != 0

/-- ChartHandler.__init__: symbol textbox starts at INITIAL_SYMBOL, the
timeframe switcher at DEFAULT_TIMEFRAME, no dataset or watermark set yet,
and the client handle unset (None). Cosmetic widget construction
(toolbox, legend, buttons, hotkey registration) carries no state beyond
the callbacks it binds. The shared queue starts empty. -/
def init (α : Type) (cfg : Config) (rendered : String) : HandlerState α :=
  { chart := { symbol := cfg.INITIAL_SYMBOL
               timeframe := cfg.DEFAULT_TIMEFRAME
               dataset := none
               watermark := none
               rendered := rendered }
    client := none
    data_queue := [] }

/-- ChartHandler.set_client: late-binds the IBClient handle. -/
def set_client (s : HandlerState α) (c : ClientState) : HandlerState α :=
  { s with client := some c }

/-- The drain loop of ChartHandler.update_chart: repeatedly
data_queue.get_nowait() (pop the FIFO head), append to bars, log a debug
line; the queue.Empty exception ends the loop and is answered with an
info log. Returns (bars, remaining queue, events of the loop). -/
def drainLoop (q : List α) (bars : List α) (evs : List (Event α)) :
    List α × List α × List (Event α) :=
  match q with
  | [] => (bars, [], evs ++ [Event.logInfo "No new data in queue."])
  | b :: rest => drainLoop rest (bars ++ [b]) (evs ++ [Event.logDebugData b])

/-- ChartHandler.update_chart: spinner on, drain the shared queue
non-blocking until queue.Empty, build a DataFrame from the drained bars;
in the finally block, if the frame is non-empty replace the chart dataset
with it (chart.set), otherwise log a warning; spinner off. Never raises. -/
def update_chart (s : HandlerState α) : HandlerState α × List (Event α) :=
  let r := drainLoop s.data_queue [] []
  let bars := r.1
  let evs := [Event.spinner true,
              Event.logInfo "Updating chart with new data from the queue."] ++ r.2.2
  if bars.isEmpty then
    ({ s with data_queue := r.2.1 },
     evs ++ [Event.logWarning "No data to update the chart.", Event.spinner false])
  else
    ({ s with data_queue := r.2.1,
              chart := { s.chart with dataset := some bars } },
     evs ++ [Event.chartSet bars, Event.spinner false])

/-- ChartHandler.request_data: log, spinner on, build the Contract
(symbol, STK, SMART, DEFAULT_CURRENCY), then
client.reqHistoricalData(2, contract, endDateTime = empty,
durationStr = DEFAULT_HISTORICAL_DURATION, barSizeSetting = timeframe,
whatToShow = TRADES, useRTH = True, formatDate = 2, keepUpToDate = False,
chartOptions = []), sleep 1 second, set the watermark to the symbol,
spinner off. With the client handle unset, the reqHistoricalData
attribute access raises AttributeError, uncaught. -/
def request_data (cfg : Config) (s : HandlerState α) (symbol timeframe : String) :
    List (Event α) × PyResult (HandlerState α) :=
  let evs0 := [Event.logInfo ("Requesting bar data for " ++ symbol ++ " " ++ timeframe),
               Event.spinner true]
  let contract : Contract :=
    { symbol := symbol
      secType := "STK"
      exchange := "SMART"
      currency := cfg.DEFAULT_CURRENCY }
  let what_to_show := "TRADES"
  match s.client with
  | none =>
    (evs0, PyResult.raised (PyErr.attributeError
      "NoneType object has no attribute reqHistoricalData"))
  | some _ =>
    (evs0 ++ [Event.reqHistoricalData 2 contract ""
                cfg.DEFAULT_HISTORICAL_DURATION timeframe what_to_show
                true 2 false [],
              Event.sleepSecs 1,
              Event.watermarkSet symbol,
              Event.spinner false],
     PyResult.ok { s with chart := { s.chart with watermark := some symbol } })

/-- ChartHandler.on_timeframe_selection: read the current symbol and the
newly selected timeframe from the topbar, log, request data for them. -/
def on_timeframe_selection (cfg : Config) (s : HandlerState α) :
    List (Event α) × PyResult (HandlerState α) :=
  let symbol := s.chart.symbol
  let timeframe := s.chart.timeframe
  let evs0 := [Event.logInfo ("Selected timeframe: " ++ timeframe ++ " for " ++ symbol)]
  let r := request_data cfg s symbol timeframe
  (evs0 ++ r.1, r.2)

/-- ChartHandler.on_search: log, request data for the searched string at
the currently selected timeframe, then set the topbar symbol textbox to
the searched string. The textbox update runs only after request_data
returns; when request_data raises, the exception propagates and the
textbox is never updated. -/
def on_search (cfg : Config) (s : HandlerState α) (searched_string : String) :
    List (Event α) × PyResult (HandlerState α) :=
  let evs0 := [Event.logInfo ("Searching for symbol: " ++ searched_string)]
  let r := request_data cfg s searched_string s.chart.timeframe
  match r.2 with
  | PyResult.raised e => (evs0 ++ r.1, PyResult.raised e)
  | PyResult.ok s1 =>
    (evs0 ++ r.1 ++ [Event.topbarSymbolSet searched_string],
     PyResult.ok { s1 with chart := { s1.chart with symbol := searched_string } })

/-- ChartHandler.take_screenshot: img = chart.screenshot() (the widget's
current rendered image bytes), then write img to the file
screenshot-{t}.png in the working directory, where t is the rendering of
time.time(), the current Unix timestamp, passed here as the parameter t. -/
def take_screenshot (s : HandlerState α) (key : Char) (t : String) :
    List (Event α) × PyResult (HandlerState α) :=
  ([Event.screenshotCall,
    Event.fileWrite ("screenshot-" ++ t ++ ".png") s.chart.rendered],
   PyResult.ok s)

/-- ChartHandler.place_order: read the current symbol, build the Contract
(symbol, STK, USD, SMART), derive the action from the pressed hotkey
(BUY when the key is B, SELL otherwise), quantity 1; client.reqIds(-1),
sleep 2 seconds; then, if client.order_id is truthy, log and submit one
market order via client.placeOrder(order_id, contract, order); otherwise
log an error and drop the order. With the client handle unset, the
reqIds attribute access raises AttributeError, uncaught. -/
def place_order (s : HandlerState α) (key : Char) :
    List (Event α) × PyResult (HandlerState α) :=
  let symbol := s.chart.symbol
  let contract : Contract :=
    { symbol := symbol
      secType := "STK"
      currency := "USD"
      exchange := "SMART" }
  let order_action := if key == 'B' then "BUY" else "SELL"
  let order_quantity := 1
  match s.client with
  | none =>
    ([], PyResult.raised (PyErr.attributeError
      "NoneType object has no attribute reqIds"))
  | some c =>
    let evs0 := [Event.reqIds (-1), Event.sleepSecs 2]
    if pyTruthy c.order_id then
      let order : Order :=
        { orderType := "MKT", totalQuantity := order_quantity, action := order_action }
      (evs0 ++ [Event.logInfo ("Placing " ++ order_action ++ " order for " ++
                  toString order_quantity ++ " shares of " ++ symbol),
                Event.placeOrder (c.order_id.getD 0) contract order],
       PyResult.ok s)
    else
      (evs0 ++ [Event.logError "Order ID not received from IB API. Cannot place order."],
       PyResult.ok s)

/-- Discriminator for chart.set events. -/
def Event.isChartSet : Event α → Bool
  | Event.chartSet _ => true
  | _ => false

/-- Discriminator for reqHistoricalData calls. -/
def Event.isReqHist : Event α → Bool
  | Event.reqHistoricalData _ _ _ _ _ _ _ _ _ _ => true
  | _ => false

/-- Discriminator for placeOrder calls. -/
def Event.isPlaceOrder : Event α → Bool
  | Event.placeOrder _ _ _ => true
  | _ => false

/-- Discriminator for logged errors. -/
def Event.isLogError : Event α → Bool
  | Event.logError _ => true
  | _ => false

/-- Discriminator for logged warnings. -/
def Event.isLogWarning : Event α → Bool
  | Event.logWarning _ => true
  | _ => false

/-- The drain loop pops every queued element in FIFO order: it returns the
accumulated bars followed by the whole queue, an empty queue, and the
per-bar debug lines followed by the closing info line. -/
theorem drainLoop_eq (q bars : List α) (evs : List (Event α)) :
    drainLoop q bars evs =
      (bars ++ q, [],
       evs ++ q.map (fun b => Event.logDebugData b) ++
         [Event.logInfo "No new data in queue."]) := by
  induction q generalizing bars evs with
  | nil => simp [drainLoop]
  | cons b rest ih => simp [drainLoop, ih]

/-- Filtering debug lines away: no logDebugData event passes a filter
whose predicate rejects logDebugData. -/
theorem filter_debugMap (p : Event α → Bool)
    (h : ∀ b : α, p (Event.logDebugData b) = false) (l : List α) :
    List.filter p (l.map (fun b => Event.logDebugData b)) = [] := by
  induction l with
  | nil => rfl
  | cons b rest ih => simp [List.filter_cons, h, ih]

/-- Sample configuration used as a concrete witness input; the default
currency deliberately differs from USD. -/
def wcfg : Config :=
  { INITIAL_SYMBOL := "AAPL"
    DEFAULT_TIMEFRAME := "1 min"
    DEFAULT_HISTORICAL_DURATION := "30 D"
    DEFAULT_CURRENCY := "EUR" }

/-- Concrete handler state with a nonempty queue and a previously
displayed dataset (bars are Nat stand-ins). -/
def wsQueue : HandlerState Nat :=
  { chart := { symbol := "AAPL", timeframe := "1 min", dataset := some [9]
               watermark := none, rendered := "img" }
    client := none
    data_queue := [5, 6] }

/-- Concrete handler state with an empty queue and a previously displayed
dataset. -/
def wsEmptyQueue : HandlerState Nat :=
  { chart := { symbol := "AAPL", timeframe := "1 min", dataset := some [1, 2]
               watermark := none, rendered := "img" }
    client := none
    data_queue := [] }

/-- Concrete handler state with a connected client whose order_id is 42. -/
def wsClient : HandlerState Nat :=
  { chart := { symbol := "AAPL", timeframe := "5 mins", dataset := none
               watermark := none, rendered := "img" }
    client := some { order_id := some 42 }
    data_queue := [] }

/-- Claim C1, counterexample to the universally quantified form: when the
queue holds the empty sequence of bars and a dataset [1, 2] is already
displayed, update_chart does not replace the displayed dataset with the
drained (empty) sequence; the old dataset stays. -/
theorem update_chart_empty_queue_not_replaced_counterexample :
    (update_chart wsEmptyQueue).1.chart.dataset = some [1, 2] ∧
    (update_chart wsEmptyQueue).1.chart.dataset ≠ some ([] : List Nat) := by
  decide

/-- Claim C1 (amended to nonempty queues): for every nonempty sequence of
bars sitting in the shared queue when update_chart is called, the drain
removes every available item until the empty-queue signal, and the
chart's displayed dataset is replaced with exactly those drained bars in
arrival order — a full replace issued by exactly one chart.set call,
regardless of any previously displayed dataset — leaving the queue empty
afterward. (When the queue is empty no replacement happens; see the
empty-queue theorem.) -/
theorem update_chart_nonempty_full_replace (α : Type) [DecidableEq α]
    (s : HandlerState α) (hne : s.data_queue ≠ []) :
    (update_chart s).1.data_queue = [] ∧
    (update_chart s).1.chart.dataset = some s.data_queue ∧
    List.filter Event.isChartSet (update_chart s).2 =
      [Event.chartSet s.data_queue] := by
  obtain ⟨b, rest, hq⟩ := List.exists_cons_of_ne_nil hne
  simp [update_chart, hq, drainLoop_eq, List.filter_append, List.filter_cons,
        Event.isChartSet, filter_debugMap (fun e => Event.isChartSet e) (fun b => rfl)]

/-- Claim C1 witness: on the concrete state with queue [5, 6], the queue
is drained, the previously displayed dataset [9] is fully replaced by
[5, 6], and exactly one chart.set call carries [5, 6]. -/
theorem update_chart_nonempty_full_replace_witness :
    (update_chart wsQueue).1.data_queue = [] ∧
    (update_chart wsQueue).1.chart.dataset = some [5, 6] ∧
    List.filter Event.isChartSet (update_chart wsQueue).2 =
      [Event.chartSet [5, 6]] :=
  update_chart_nonempty_full_replace Nat wsQueue (by decide)

/-- Claim C5: calling update_chart with the shared queue empty leaves the
chart (in particular the displayed dataset) unchanged — no chart.set call
appears in the trace — emits exactly one warning and no error, and
returns normally (update_chart catches queue.Empty and never raises). -/
theorem update_chart_empty_queue_no_change_warns (α : Type) [DecidableEq α]
    (s : HandlerState α) (hq : s.data_queue = []) :
    (update_chart s).1.chart = s.chart ∧
    List.filter Event.isChartSet (update_chart s).2 = [] ∧
    List.filter Event.isLogWarning (update_chart s).2 =
      [Event.logWarning "No data to update the chart."] ∧
    List.filter Event.isLogError (update_chart s).2 = [] := by
  simp [update_chart, hq, drainLoop, List.filter_append, List.filter_cons,
        Event.isChartSet, Event.isLogWarning, Event.isLogError]

/-- Claim C5 witness: on the concrete state with an empty queue, the
chart is unchanged, no chart.set occurs, exactly one warning and no error
is logged. -/
theorem update_chart_empty_queue_no_change_warns_witness :
    (update_chart wsEmptyQueue).1.chart = wsEmptyQueue.chart ∧
    List.filter Event.isChartSet (update_chart wsEmptyQueue).2 = [] ∧
    List.filter Event.isLogWarning (update_chart wsEmptyQueue).2 =
      [Event.logWarning "No data to update the chart."] ∧
    List.filter Event.isLogError (update_chart wsEmptyQueue).2 = [] :=
  update_chart_empty_queue_no_change_warns Nat wsEmptyQueue rfl

/-- Claim C2: with the client set, request_data issues exactly one
reqHistoricalData call, with requestId 2, a contract carrying the
requested symbol, secType STK, exchange SMART and the configured default
currency, empty endDateTime (meaning now), the configured duration,
barSizeSetting equal to the requested timeframe, whatToShow TRADES,
useRTH true, formatDate 2 (Unix timestamps), keepUpToDate false and
empty chartOptions; the call returns normally, updating the watermark. -/
theorem request_data_issues_single_historical_request (α : Type) [DecidableEq α]
    (cfg : Config) (s : HandlerState α) (c : ClientState) (hc : s.client = some c)
    (symbol timeframe : String) :
    List.filter Event.isReqHist (request_data cfg s symbol timeframe).1 =
      [Event.reqHistoricalData 2
        { symbol := symbol, secType := "STK", exchange := "SMART",
          currency := cfg.DEFAULT_CURRENCY }
        "" cfg.DEFAULT_HISTORICAL_DURATION timeframe "TRADES" true 2 false []] ∧
    (request_data cfg s symbol timeframe).2 =
      PyResult.ok { s with chart := { s.chart with watermark := some symbol } } := by
  simp [request_data, hc, List.filter_append, List.filter_cons, Event.isReqHist]

/-- Claim C2 witness: requesting AAPL at 5 mins with default currency EUR
issues exactly one reqHistoricalData call with the stated parameters. -/
theorem request_data_issues_single_historical_request_witness :
    List.filter Event.isReqHist (request_data wcfg wsClient "AAPL" "5 mins").1 =
      [Event.reqHistoricalData 2
        { symbol := "AAPL", secType := "STK", exchange := "SMART",
          currency := "EUR" }
        "" "30 D" "5 mins" "TRADES" true 2 false []] ∧
    (request_data wcfg wsClient "AAPL" "5 mins").2 =
      PyResult.ok { wsClient with
        chart := { wsClient.chart with watermark := some "AAPL" } } :=
  request_data_issues_single_historical_request Nat wcfg wsClient
    { order_id := some 42 } rfl "AAPL" "5 mins"

/-- Claim C3: when the client is set and its order_id holds a truthy
value after the wait window, place_order makes exactly one placeOrder
call to the client, with that order id, the current symbol's contract,
total quantity 1, order type MKT (market), and action BUY when the
invoking hotkey key is B and SELL when it is S; the call returns
normally. -/
theorem place_order_truthy_id_submits_market_order (α : Type) [DecidableEq α]
    (s : HandlerState α) (c : ClientState) (key : Char)
    (hc : s.client = some c) (oid : Int) (hid : c.order_id = some oid)
    (hnz : oid ≠ 0) (hkey : key = 'B' ∨ key = 'S') :
    List.filter Event.isPlaceOrder (place_order s key).1 =
      [Event.placeOrder oid
        { symbol := s.chart.symbol, secType := "STK", currency := "USD",
          exchange := "SMART" }
        { orderType := "MKT", totalQuantity := 1,
          action := if key = 'B' then "BUY" else "SELL" }] ∧
    (place_order s key).2 = PyResult.ok s := by
  simp [place_order, hc, hid, pyTruthy, hnz, List.filter_append,
        List.filter_cons, Event.isPlaceOrder]

/-- Claim C3 witness: with order_id 42 present and the B hotkey, exactly
one BUY market order for 1 share is submitted with order id 42. -/
theorem place_order_truthy_id_submits_market_order_witness :
    List.filter Event.isPlaceOrder (place_order wsClient 'B').1 =
      [Event.placeOrder 42
        { symbol := "AAPL", secType := "STK", currency := "USD",
          exchange := "SMART" }
        { orderType := "MKT", totalQuantity := 1, action := "BUY" }] ∧
    (place_order wsClient 'B').2 = PyResult.ok wsClient :=
  place_order_truthy_id_submits_market_order Nat wsClient
    { order_id := some 42 } 'B' rfl 42 rfl (by decide) (Or.inl rfl)

/-- Concrete handler state with a connected client that received no
order id (order_id is None). -/
def wsClientNoId : HandlerState Nat :=
  { chart := { symbol := "AAPL", timeframe := "5 mins", dataset := none
               watermark := none, rendered := "img" }
    client := some { order_id := none }
    data_queue := [] }

/-- Claim C4: when the client is set but no order id has been assigned
within the wait window (order_id is None), place_order makes no
placeOrder call, logs exactly one error, and returns normally — the
order is dropped with no retry and no queuing, the state unchanged. -/
theorem place_order_absent_id_no_submit_logs_error (α : Type) [DecidableEq α]
    (s : HandlerState α) (c : ClientState) (key : Char)
    (hc : s.client = some c) (hid : c.order_id = none) :
    List.filter Event.isPlaceOrder (place_order s key).1 = [] ∧
    List.filter Event.isLogError (place_order s key).1 =
      [Event.logError "Order ID not received from IB API. Cannot place order."] ∧
    (place_order s key).2 = PyResult.ok s := by
  simp [place_order, hc, hid, pyTruthy, List.filter_append, List.filter_cons,
        Event.isPlaceOrder, Event.isLogError]

/-- Claim C4 witness: with order_id None and the B hotkey, no order is
submitted and exactly one error is logged. -/
theorem place_order_absent_id_no_submit_logs_error_witness :
    List.filter Event.isPlaceOrder (place_order wsClientNoId 'B').1 = [] ∧
    List.filter Event.isLogError (place_order wsClientNoId 'B').1 =
      [Event.logError "Order ID not received from IB API. Cannot place order."] ∧
    (place_order wsClientNoId 'B').2 = PyResult.ok wsClientNoId :=
  place_order_absent_id_no_submit_logs_error Nat wsClientNoId
    { order_id := none } 'B' rfl rfl

/-- Concrete handler state with a connected client whose order_id is 0. -/
def wsClientZeroId : HandlerState Nat :=
  { chart := { symbol := "AAPL", timeframe := "5 mins", dataset := none
               watermark := none, rendered := "img" }
    client := some { order_id := some 0 }
    data_queue := [] }

/-- Claim C10: when the client's order_id holds the value 0 after the
wait window, the presence test (Python truthiness, not a not-None check)
treats the id as absent: no placeOrder call is made and one error is
logged, even though an id value did arrive. -/
theorem place_order_zero_id_treated_absent (α : Type) [DecidableEq α]
    (s : HandlerState α) (c : ClientState) (key : Char)
    (hc : s.client = some c) (hid : c.order_id = some 0) :
    List.filter Event.isPlaceOrder (place_order s key).1 = [] ∧
    List.filter Event.isLogError (place_order s key).1 =
      [Event.logError "Order ID not received from IB API. Cannot place order."] ∧
    (place_order s key).2 = PyResult.ok s := by
  simp [place_order, hc, hid, pyTruthy, List.filter_append, List.filter_cons,
        Event.isPlaceOrder, Event.isLogError]

/-- Claim C10 witness: with order_id 0 and the B hotkey, no order is
submitted and exactly one error is logged. -/
theorem place_order_zero_id_treated_absent_witness :
    List.filter Event.isPlaceOrder (place_order wsClientZeroId 'B').1 = [] ∧
    List.filter Event.isLogError (place_order wsClientZeroId 'B').1 =
      [Event.logError "Order ID not received from IB API. Cannot place order."] ∧
    (place_order wsClientZeroId 'B').2 = PyResult.ok wsClientZeroId :=
  place_order_zero_id_treated_absent Nat wsClientZeroId
    { order_id := some 0 } 'B' rfl rfl

/-- Claim C9: the contract place_order submits carries currency USD
unconditionally — place_order reads no configuration, so this holds for
every configured default currency — while the contract request_data
builds carries the configured default currency. -/
theorem place_order_currency_usd_regardless_of_config (α : Type) [DecidableEq α]
    (cfg : Config) (s : HandlerState α) (c : ClientState) (hc : s.client = some c)
    (oid : Int) (hid : c.order_id = some oid) (hnz : oid ≠ 0) (key : Char)
    (symbol timeframe : String) :
    List.filter Event.isPlaceOrder (place_order s key).1 =
      [Event.placeOrder oid
        { symbol := s.chart.symbol, secType := "STK", currency := "USD",
          exchange := "SMART" }
        { orderType := "MKT", totalQuantity := 1,
          action := if key = 'B' then "BUY" else "SELL" }] ∧
    List.filter Event.isReqHist (request_data cfg s symbol timeframe).1 =
      [Event.reqHistoricalData 2
        { symbol := symbol, secType := "STK", exchange := "SMART",
          currency := cfg.DEFAULT_CURRENCY }
        "" cfg.DEFAULT_HISTORICAL_DURATION timeframe "TRADES" true 2 false []] := by
  constructor
  · simp [place_order, hc, hid, pyTruthy, hnz, List.filter_append,
          List.filter_cons, Event.isPlaceOrder]
  · simp [request_data, hc, List.filter_append, List.filter_cons, Event.isReqHist]

/-- Claim C9 witness: with the configured default currency EUR, the
submitted order's contract still carries USD while the historical-data
request's contract carries EUR. -/
theorem place_order_currency_usd_regardless_of_config_witness :
    List.filter Event.isPlaceOrder (place_order wsClient 'S').1 =
      [Event.placeOrder 42
        { symbol := "AAPL", secType := "STK", currency := "USD",
          exchange := "SMART" }
        { orderType := "MKT", totalQuantity := 1, action := "SELL" }] ∧
    List.filter Event.isReqHist (request_data wcfg wsClient "AAPL" "5 mins").1 =
      [Event.reqHistoricalData 2
        { symbol := "AAPL", secType := "STK", exchange := "SMART",
          currency := "EUR" }
        "" "30 D" "5 mins" "TRADES" true 2 false []] :=
  place_order_currency_usd_regardless_of_config Nat wcfg wsClient
    { order_id := some 42 } rfl 42 rfl (by decide) 'S' "AAPL" "5 mins"

/-- Claim C6: with the client set, on_search issues the historical-data
request for the searched string at the currently selected timeframe
strictly before updating the topbar symbol display to the searched
string, and the returned state shows the searched symbol. -/
theorem on_search_requests_before_symbol_update (α : Type) [DecidableEq α]
    (cfg : Config) (s : HandlerState α) (c : ClientState) (hc : s.client = some c)
    (searched_string : String) :
    (∃ pre mid, (on_search cfg s searched_string).1 =
      pre ++ Event.reqHistoricalData 2
        { symbol := searched_string, secType := "STK", exchange := "SMART",
          currency := cfg.DEFAULT_CURRENCY }
        "" cfg.DEFAULT_HISTORICAL_DURATION s.chart.timeframe "TRADES" true 2 false [] ::
        (mid ++ [Event.topbarSymbolSet searched_string])) ∧
    (on_search cfg s searched_string).2 =
      PyResult.ok { s with chart :=
        { s.chart with symbol := searched_string
                       watermark := some searched_string } } := by
  constructor
  · exact ⟨[Event.logInfo ("Searching for symbol: " ++ searched_string),
            Event.logInfo ("Requesting bar data for " ++ searched_string ++ " " ++
              s.chart.timeframe),
            Event.spinner true],
           [Event.sleepSecs 1, Event.watermarkSet searched_string,
            Event.spinner false],
           by simp [on_search, request_data, hc]⟩
  · simp [on_search, request_data, hc]

/-- Claim C6 witness: searching MSFT issues the request for MSFT at the
current timeframe 5 mins before the symbol display is set to MSFT, and
the resulting state displays MSFT. -/
theorem on_search_requests_before_symbol_update_witness :
    (∃ pre mid, (on_search wcfg wsClient "MSFT").1 =
      pre ++ Event.reqHistoricalData 2
        { symbol := "MSFT", secType := "STK", exchange := "SMART",
          currency := "EUR" }
        "" "30 D" "5 mins" "TRADES" true 2 false [] ::
        (mid ++ [Event.topbarSymbolSet "MSFT"])) ∧
    (on_search wcfg wsClient "MSFT").2 =
      PyResult.ok { wsClient with chart :=
        { wsClient.chart with symbol := "MSFT"
                              watermark := some "MSFT" } } :=
  on_search_requests_before_symbol_update Nat wcfg wsClient
    { order_id := some 42 } rfl "MSFT"

/-- Concrete handler state whose client handle is unset, as left by
construction before set_client. -/
def wsNoClient : HandlerState Nat := init Nat wcfg "img"

/-- Claim C7: construction leaves the client handle unset, and with the
handle unset every request_data and place_order call raises an uncaught
AttributeError (the Python null-reference-class error) — nothing catches
it and no handled error is returned. -/
theorem unset_client_calls_raise_attribute_error (α : Type) (cfg : Config)
    (s : HandlerState α) (hc : s.client = none) (symbol timeframe : String)
    (key : Char) (rendered : String) :
    (init α cfg rendered).client = none ∧
    (request_data cfg s symbol timeframe).2 =
      PyResult.raised (PyErr.attributeError
        "NoneType object has no attribute reqHistoricalData") ∧
    (place_order s key).2 =
      PyResult.raised (PyErr.attributeError
        "NoneType object has no attribute reqIds") := by
  refine ⟨rfl, ?_, ?_⟩ <;> simp [request_data, place_order, hc]

/-- Claim C7 witness: on the freshly constructed state, request_data and
place_order raise AttributeError. -/
theorem unset_client_calls_raise_attribute_error_witness :
    (init Nat wcfg "img").client = none ∧
    (request_data wcfg wsNoClient "AAPL" "5 mins").2 =
      PyResult.raised (PyErr.attributeError
        "NoneType object has no attribute reqHistoricalData") ∧
    (place_order wsNoClient 'B').2 =
      PyResult.raised (PyErr.attributeError
        "NoneType object has no attribute reqIds") :=
  unset_client_calls_raise_attribute_error Nat wcfg wsNoClient rfl
    "AAPL" "5 mins" 'B' "img"

/-- Claim C8: take_screenshot captures the widget's current rendered
image (chart.screenshot) and writes exactly those bytes to the file
screenshot-{t}.png in the working directory, where t is the current Unix
timestamp read from the clock at the call; the call returns normally. -/
theorem take_screenshot_writes_timestamped_png (α : Type) (s : HandlerState α)
    (key : Char) (t : String) :
    (take_screenshot s key t).1 =
      [Event.screenshotCall,
       Event.fileWrite ("screenshot-" ++ t ++ ".png") s.chart.rendered] ∧
    (take_screenshot s key t).2 = PyResult.ok s :=
  ⟨rfl, rfl⟩

end IbTrading
